import Mathlib

/-!
# QtHashSum: the main window's request construction

A shallow embedding of `src/mainwindow.cpp`: the handlers that turn the state of
the widgets into hashing jobs (`on_btnStart_clicked`, `on_btnStartDir_clicked`),
the worker-count handler (`on_cmbThreads_currentIndexChanged`) and the
environment built for the external backup tool (`getResticEnv`).

Qt itself is not part of the repository.  What the handlers read from Qt
(`QFileInfo`, `QDirIterator`, `QString::toInt`) is passed in as data, so every
theorem holds for whatever Qt answers; the few facts about Qt that a theorem
needs are explicit hypotheses of that theorem.
-/

namespace QtHashSum

/-! ## Data model -/

/-- A `QString`; `size()` is rendered by `String.length`. -/
abbrev QString := String

/-- The enum `QCryptographicHash::Algorithm`, kept as its integer value so that
the `static_cast` from a combo-box index in `on_btnStartDir_clicked` is total. -/
structure Algorithm where
  code : Int
deriving DecidableEq, Repr

namespace Algorithm
/-- Enumerator `QCryptographicHash::Md4`. -/
def Md4 : Algorithm := ⟨0⟩
/-- Enumerator `QCryptographicHash::Md5`. -/
def Md5 : Algorithm := ⟨1⟩
/-- Enumerator `QCryptographicHash::Sha1`. -/
def Sha1 : Algorithm := ⟨2⟩
/-- Enumerator `QCryptographicHash::Sha256`. -/
def Sha256 : Algorithm := ⟨4⟩
/-- Enumerator `QCryptographicHash::Sha512`. -/
def Sha512 : Algorithm := ⟨6⟩
/-- Enumerator `QCryptographicHash::Sha3_256` (value of Qt 5.9.2 and later). -/
def Sha3_256 : Algorithm := ⟨12⟩
/-- Enumerator `QCryptographicHash::Sha3_512` (value of Qt 5.9.2 and later). -/
def Sha3_512 : Algorithm := ⟨14⟩
end Algorithm

/-- The C++ `static_cast<QCryptographicHash::Algorithm>(int)`. -/
def static_cast_Algorithm (i : Int) : Algorithm := ⟨i⟩

/-- A `FileHasher` as `mainwindow.cpp` builds it: the three constructor
arguments and the auto-delete flag of the underlying `QRunnable`. -/
structure FileHasher where
  name : QString
  method : Algorithm
  baseLen : Int
  autoDelete : Bool
deriving DecidableEq, Repr

/-- The constructor call `new FileHasher(path, method, len)`; a fresh `QRunnable` has
auto-deletion switched on. -/
def FileHasher.new (path : QString) (method : Algorithm) (len : Int) : FileHasher :=
  { name := path, method := method, baseLen := len, autoDelete := true }

/-- The call `fh->setAutoDelete(b)`. -/
def FileHasher.setAutoDelete (fh : FileHasher) (b : Bool) : FileHasher :=
  { fh with autoDelete := b }

/-- A `ProgressDialog` as constructed by the handlers: the job vector, the directory
string, and the two boolean arguments in call order (the second one is the
duplicate-detection flag, fed from `chkDuplicates` in tree mode). -/
structure ProgressDialog where
  jobs : List FileHasher
  dir : QString
  methodColumn : Bool
  duplicates : Bool
deriving DecidableEq, Repr

/-- What a `QFileInfo` answers to the three queries `on_btnStart_clicked` makes. -/
structure QFileInfo where
  fileExists : Bool
  absoluteFilePath : QString
  absolutePath : QString
deriving DecidableEq, Repr

/-- One step of a `QDirIterator`: the string returned by `itr.next()` and what
`itr.fileInfo()` then answers to `isFile()` and `size()` (a `qint64`). -/
structure DirEntry where
  filePath : QString
  isFile : Bool
  size : Int
deriving DecidableEq, Repr

/-- The file system as the handlers see it through Qt: `QFileInfo(path)` and the
finite sequence a `QDirIterator(dir, AllEntries | Hidden | System, Subdirectories)`
walks through. -/
structure FileSystem where
  fileInfo : QString → QFileInfo
  entries : QString → List DirEntry

/-- The widgets of `Ui::MainWindow` that the modelled handlers read. -/
structure Ui where
  chkMD5 : Bool
  chkSHA1 : Bool
  chkSHA2_256 : Bool
  chkSHA2_512 : Bool
  chkSHA3_256 : Bool
  chkSHA3_512 : Bool
  txtFile : QString
  txtDir : QString
  cmbMethods_currentIndex : Int
  chkDuplicates : Bool
  txtResticB2ID : QString
  txtResticB2Key : QString
  txtResticRepo : QString
  txtResticPassword : QString
deriving DecidableEq, Repr

/-- The effect of one button handler: the `FileHasher` objects it allocated and the
`ProgressDialog` it constructed and showed, if any. -/
structure Outcome where
  created : List FileHasher
  dialog : Option ProgressDialog
deriving DecidableEq, Repr

/-- An early `return` taken before anything is allocated. -/
def Outcome.nothing : Outcome := { created := [], dialog := none }

/-! ## Single-file mode -/

/-- Lines 69-75 of `on_btnStart_clicked`: the `methods` vector after the six
conditional `append` calls. -/
def selectedMethods (ui : Ui) : List Algorithm :=
  let methods : List Algorithm := []
  let methods := if ui.chkMD5 then methods ++ [Algorithm.Md5] else methods
  let methods := if ui.chkSHA1 then methods ++ [Algorithm.Sha1] else methods
  let methods := if ui.chkSHA2_256 then methods ++ [Algorithm.Sha256] else methods
  let methods := if ui.chkSHA2_512 then methods ++ [Algorithm.Sha512] else methods
  let methods := if ui.chkSHA3_256 then methods ++ [Algorithm.Sha3_256] else methods
  let methods := if ui.chkSHA3_512 then methods ++ [Algorithm.Sha3_512] else methods
  methods

/-- The body of the `foreach` of `on_btnStart_clicked` (lines 82-84). -/
def startJob (file : QFileInfo) (jobs : List FileHasher) (method : Algorithm) :
    List FileHasher :=
  let fh := FileHasher.new file.absoluteFilePath method file.absolutePath.length
  let fh := fh.setAutoDelete false
  jobs ++ [fh]

/-- The handler `MainWindow::on_btnStart_clicked`. -/
def on_btnStart_clicked (fs : FileSystem) (ui : Ui) : Outcome :=
  let methods := selectedMethods ui
  if methods.length < 1 then Outcome.nothing else
  let file := fs.fileInfo ui.txtFile
  if !file.fileExists then Outcome.nothing else
  let jobs := methods.foldl (startJob file) []
  { created := jobs, dialog := some ⟨jobs, "", true, false⟩ }

/-! ## Tree mode -/

/-- The value a C++ `int` (32 bits) holds after an arithmetic result `x`.  For `x`
in the range of `int` it is `x` itself.  Outside that range the C++ operation is a signed
overflow, whose behaviour is undefined; the two's-complement value stands in for it
there, and no theorem of this file reads `wrapInt32` outside the range of `int`. -/
def wrapInt32 (x : Int) : Int := (x + 2 ^ 31) % 2 ^ 32 - 2 ^ 31

/-- The C++ `static_cast<quint64>(qint64)`. -/
def castQuint64 (x : Int) : Nat := (x % 2 ^ 64).toNat

/-- What the enumeration loop does that is visible outside it, in order. -/
inductive LoopEvent where
  | processEvents (items : Int)
  | next (file : QString)
deriving DecidableEq, Repr

/-- The local variables of `on_btnStartDir_clicked` that the loop updates, with the
log of the calls made so far. -/
structure LoopState where
  items : Int
  totalsize : Nat
  jobs : List FileHasher
  events : List LoopEvent
deriving DecidableEq, Repr

/-- The state on entry to the `while` loop (lines 93, 97, 98). -/
def LoopState.init : LoopState := { items := 0, totalsize := 0, jobs := [], events := [] }

/-- One iteration of the `while` loop (lines 101-115) on the entry `itr.next()`
yields. -/
def loopBody (method : Algorithm) (dir : QString) (st : LoopState) (e : DirEntry) :
    LoopState :=
  let items := wrapInt32 (st.items + 1)
  let events :=
    if Int.tmod items 1000 = 0 then st.events ++ [LoopEvent.processEvents items]
    else st.events
  let file := e.filePath
  let events := events ++ [LoopEvent.next file]
  if e.isFile then
    let totalsize := (st.totalsize + castQuint64 e.size) % 2 ^ 64
    let fh := FileHasher.new file method dir.length
    let fh := fh.setAutoDelete false
    { items := items, totalsize := totalsize, jobs := st.jobs ++ [fh], events := events }
  else
    { items := items, totalsize := st.totalsize, jobs := st.jobs, events := events }

/-- The whole `while(itr.hasNext())` loop over the entries the iterator yields. -/
def enumerate (method : Algorithm) (dir : QString) (entries : List DirEntry) : LoopState :=
  entries.foldl (loopBody method dir) LoopState.init

/-- The handler `MainWindow::on_btnStartDir_clicked`. -/
def on_btnStartDir_clicked (fs : FileSystem) (ui : Ui) : Outcome :=
  let method := static_cast_Algorithm ui.cmbMethods_currentIndex
  let dir := ui.txtDir
  if dir.length < 1 then Outcome.nothing else
  let st := enumerate method dir (fs.entries dir)
  { created := st.jobs, dialog := some ⟨st.jobs, dir, false, ui.chkDuplicates⟩ }

/-- The members the worker-count handler touches: `MainWindow::maxThreadCount` and the
`maxThreadCount` property of `QThreadPool::globalInstance()`. -/
structure MainWindow where
  maxThreadCount : Int
  poolMaxThreadCount : Int
deriving DecidableEq, Repr

/-- Line 36 of the constructor: the host default `n` of the global pool is captured in
`maxThreadCount`. -/
def MainWindow.new (n : Int) : MainWindow := { maxThreadCount := n, poolMaxThreadCount := n }

/-- The handler `MainWindow::on_cmbThreads_currentIndexChanged`; `toInt` is
`QString::toInt`. -/
def on_cmbThreads_currentIndexChanged (toInt : QString → Int) (w : MainWindow)
    (arg1 : QString) : MainWindow :=
  let threads := toInt arg1
  if threads < 1 then { w with poolMaxThreadCount := w.maxThreadCount }
  else { w with poolMaxThreadCount := threads }

/-- Value of a string of decimal digits, `none` when a character is no digit or the
string is empty. -/
def digitsValue (cs : List Char) : Option Nat :=
  if cs = [] then none
  else cs.foldl (fun acc c => acc.bind fun v =>
    if c.isDigit then some (10 * v + (c.toNat - 48)) else none) (some 0)

/-- A reading of `QString::toInt` for plain texts, used where a concrete text is
evaluated: decimal digits with an optional minus sign give their value when it fits
a 32-bit `int`, every other text gives 0. -/
def QString_toInt (s : QString) : Int :=
  let v : Option Int :=
    match s.data with
    | '-' :: cs => (digitsValue cs).map fun n => - (n : Int)
    | cs => (digitsValue cs).map fun n => (n : Int)
  match v with
  | some i => if - 2 ^ 31 ≤ i ∧ i < 2 ^ 31 then i else 0
  | none => 0

/-! ## Environment of the backup tool -/

/-- A `QProcessEnvironment`: the variables in insertion order, one pair per name. -/
abbrev QProcessEnvironment := List (QString × QString)

/-- The call `env.value(name)`: the variable's value, the empty string when unset. -/
def QProcessEnvironment.value (env : QProcessEnvironment) (name : QString) : QString :=
  match env.find? (fun kv => kv.1 == name) with
  | some kv => kv.2
  | none => ""

/-- The call `env.insert(name, value)`: an existing variable is overwritten. -/
def QProcessEnvironment.insert (env : QProcessEnvironment) (name value : QString) :
    QProcessEnvironment :=
  if env.any (fun kv => kv.1 == name) then
    env.map (fun kv => if kv.1 == name then (name, value) else kv)
  else env ++ [(name, value)]

/-- The call `env.keys()`. -/
def QProcessEnvironment.keys (env : QProcessEnvironment) : List QString :=
  env.map Prod.fst

/-- The function `MainWindow::getResticEnv`; `sysenv` is
`QProcessEnvironment::systemEnvironment()`. -/
def getResticEnv (sysenv : QProcessEnvironment) (ui : Ui) : QProcessEnvironment :=
  let env : QProcessEnvironment := []
  let env := env.insert "TMP" (sysenv.value "TMP")
  let env := env.insert "LOCALAPPDATA" (sysenv.value "LOCALAPPDATA")
  let env := env.insert "B2_ACCOUNT_ID" ui.txtResticB2ID
  let env := env.insert "B2_ACCOUNT_KEY" ui.txtResticB2Key
  let env := env.insert "RESTIC_REPOSITORY" ui.txtResticRepo
  let env := env.insert "RESTIC_PASSWORD" ui.txtResticPassword
  env

/-- A file system with one existing file and one directory tree, reached through the
relative root `data` and through the absolute root `/srv/data`. -/
def sampleFs : FileSystem where
  fileInfo := fun p =>
    if p = "notes.txt" then ⟨true, "/home/u/notes.txt", "/home/u"⟩
    else ⟨false, "/home/u/" ++ p, "/home/u"⟩
  entries := fun dir =>
    if dir = "data" then
      [⟨"data/sub", false, 4096⟩, ⟨"data/a.txt", true, 3⟩, ⟨"data/sub/b.bin", true, 10⟩]
    else if dir = "/srv/data" then
      [⟨"/srv/data/sub", false, 4096⟩, ⟨"/srv/data/a.txt", true, 3⟩]
    else []

/-- A widget state: MD5 and SHA-256 checked, file `notes.txt`, the relative root `data`,
duplicate detection requested. -/
def sampleUi : Ui where
  chkMD5 := true
  chkSHA1 := false
  chkSHA2_256 := true
  chkSHA2_512 := false
  chkSHA3_256 := false
  chkSHA3_512 := false
  txtFile := "notes.txt"
  txtDir := "data"
  cmbMethods_currentIndex := 4
  chkDuplicates := true
  txtResticB2ID := "id"
  txtResticB2Key := "key"
  txtResticRepo := "b2:bucket:folder"
  txtResticPassword := "pw"

theorem foldl_startJob (file : QFileInfo) (ms : List Algorithm) (acc : List FileHasher) :
    ms.foldl (startJob file) acc =
      acc ++ ms.map fun m =>
        (⟨file.absoluteFilePath, m, file.absolutePath.length, false⟩ : FileHasher) := by
  induction ms generalizing acc with
  | nil => simp
  | cons m ms ih =>
    simp [List.foldl_cons, ih, startJob, FileHasher.new, FileHasher.setAutoDelete]

theorem enumerate_snoc (method : Algorithm) (dir : QString) (es : List DirEntry)
    (e : DirEntry) :
    enumerate method dir (es ++ [e]) = loopBody method dir (enumerate method dir es) e := by
  simp [enumerate, List.foldl_append]

theorem enumerate_jobs (method : Algorithm) (dir : QString) (es : List DirEntry) :
    (enumerate method dir es).jobs =
      (es.filter fun e => e.isFile).map fun e =>
        (⟨e.filePath, method, dir.length, false⟩ : FileHasher) := by
  induction es using List.reverseRecOn with
  | nil => rfl
  | append_singleton es e ih =>
    rw [enumerate_snoc]
    cases he : e.isFile <;>
      simp [loopBody, he, ih, List.filter_append, FileHasher.new, FileHasher.setAutoDelete]

/-! ## Theorems -/

/-- C1: in tree mode with a non-empty root directory string, the job list handed to the
progress dialog is the subsequence of regular-file entries of the iterator, in
enumeration order, each job carrying the entry's path, the algorithm whose enum value is
the index selected in `cmbMethods`, and the length of the root directory string; the
jobs allocated are exactly those. -/
theorem tree_mode_jobs (fs : FileSystem) (ui : Ui) (hdir : 1 ≤ ui.txtDir.length) :
    ∃ pd, (on_btnStartDir_clicked fs ui).dialog = some pd ∧
      (on_btnStartDir_clicked fs ui).created = pd.jobs ∧
      pd.jobs = ((fs.entries ui.txtDir).filter fun e => e.isFile).map fun e =>
        (⟨e.filePath, Algorithm.mk ui.cmbMethods_currentIndex,
          ui.txtDir.length, false⟩ : FileHasher) := by
  have h : ¬ ui.txtDir.length < 1 := by omega
  refine ⟨⟨(enumerate (static_cast_Algorithm ui.cmbMethods_currentIndex) ui.txtDir
    (fs.entries ui.txtDir)).jobs, ui.txtDir, false, ui.chkDuplicates⟩, ?_, ?_, ?_⟩
  · simp only [on_btnStartDir_clicked, h, if_false]
  · simp only [on_btnStartDir_clicked, h, if_false]
  · show (enumerate (static_cast_Algorithm ui.cmbMethods_currentIndex) ui.txtDir
      (fs.entries ui.txtDir)).jobs = _
    rw [enumerate_jobs]
    rfl

/-- Witness of C1: the relative root `data` (length 4) with one directory and two files,
index 4 selected in `cmbMethods`: two jobs, both with the algorithm of enum value 4. -/
theorem tree_mode_jobs_witness :
    1 ≤ sampleUi.txtDir.length ∧
    (on_btnStartDir_clicked sampleFs sampleUi).created =
      [⟨"data/a.txt", Algorithm.mk 4, 4, false⟩,
        ⟨"data/sub/b.bin", Algorithm.mk 4, 4, false⟩] ∧
    ∃ pd, (on_btnStartDir_clicked sampleFs sampleUi).dialog = some pd ∧
      (on_btnStartDir_clicked sampleFs sampleUi).created = pd.jobs ∧
      pd.jobs = ((sampleFs.entries sampleUi.txtDir).filter fun e => e.isFile).map fun e =>
        (⟨e.filePath, Algorithm.mk sampleUi.cmbMethods_currentIndex,
          sampleUi.txtDir.length, false⟩ : FileHasher) :=
  ⟨by decide, by decide, tree_mode_jobs sampleFs sampleUi (by decide)⟩

/-- C2: in single-file mode, with at least one box checked and an existing file, one job
per checked algorithm is created and handed over: the jobs' algorithms are the checked
ones of MD5, SHA-1, SHA-256, SHA-512, SHA3-256, SHA3-512 in that order, their number is
the number of checked boxes, no algorithm occurs twice, and every job carries the
absolute path of the chosen file. -/
theorem single_file_jobs (fs : FileSystem) (ui : Ui)
    (hsel : ui.chkMD5 = true ∨ ui.chkSHA1 = true ∨ ui.chkSHA2_256 = true ∨
      ui.chkSHA2_512 = true ∨ ui.chkSHA3_256 = true ∨ ui.chkSHA3_512 = true)
    (hex : (fs.fileInfo ui.txtFile).fileExists = true) :
    ∃ pd, (on_btnStart_clicked fs ui).dialog = some pd ∧
      (on_btnStart_clicked fs ui).created = pd.jobs ∧
      pd.jobs.map (fun j => j.method) =
        ([(Algorithm.Md5, ui.chkMD5), (Algorithm.Sha1, ui.chkSHA1),
          (Algorithm.Sha256, ui.chkSHA2_256), (Algorithm.Sha512, ui.chkSHA2_512),
          (Algorithm.Sha3_256, ui.chkSHA3_256), (Algorithm.Sha3_512, ui.chkSHA3_512)].filter
            fun b => b.2).map (fun b => b.1) ∧
      pd.jobs.length =
        [ui.chkMD5, ui.chkSHA1, ui.chkSHA2_256, ui.chkSHA2_512, ui.chkSHA3_256,
          ui.chkSHA3_512].count true ∧
      (pd.jobs.map fun j => j.method).Nodup ∧
      ∀ j ∈ pd.jobs, j.name = (fs.fileInfo ui.txtFile).absoluteFilePath := by
  obtain ⟨c1, c2, c3, c4, c5, c6, txtFile, txtDir, idx, dup, r1, r2, r3, r4⟩ := ui
  simp only at hsel hex
  refine ⟨⟨(selectedMethods ⟨c1, c2, c3, c4, c5, c6, txtFile, txtDir, idx, dup, r1, r2, r3,
    r4⟩).foldl (startJob (fs.fileInfo txtFile)) [], "", true, false⟩, ?_, ?_, ?_, ?_, ?_, ?_⟩
  · have hlen : ¬ (selectedMethods ⟨c1, c2, c3, c4, c5, c6, txtFile, txtDir, idx, dup, r1, r2,
        r3, r4⟩).length < 1 := by
      cases c1 <;> cases c2 <;> cases c3 <;> cases c4 <;> cases c5 <;> cases c6 <;>
        simp [selectedMethods] at hsel ⊢
    simp only [on_btnStart_clicked, hlen, hex, if_false, Bool.not_true, Bool.false_eq_true]
  · have hlen : ¬ (selectedMethods ⟨c1, c2, c3, c4, c5, c6, txtFile, txtDir, idx, dup, r1, r2,
        r3, r4⟩).length < 1 := by
      cases c1 <;> cases c2 <;> cases c3 <;> cases c4 <;> cases c5 <;> cases c6 <;>
        simp [selectedMethods] at hsel ⊢
    simp only [on_btnStart_clicked, hlen, hex, if_false, Bool.not_true, Bool.false_eq_true]
  · simp only [foldl_startJob, List.nil_append, List.map_map]
    cases c1 <;> cases c2 <;> cases c3 <;> cases c4 <;> cases c5 <;> cases c6 <;>
      simp [selectedMethods]
  · simp only [foldl_startJob, List.nil_append, List.length_map]
    cases c1 <;> cases c2 <;> cases c3 <;> cases c4 <;> cases c5 <;> cases c6 <;>
      simp [selectedMethods]
  · simp only [foldl_startJob, List.nil_append, List.map_map]
    cases c1 <;> cases c2 <;> cases c3 <;> cases c4 <;> cases c5 <;> cases c6 <;>
      simp [selectedMethods, Algorithm.Md5, Algorithm.Sha1, Algorithm.Sha256,
        Algorithm.Sha512, Algorithm.Sha3_256, Algorithm.Sha3_512]
  · intro j hj
    simp only [foldl_startJob, List.nil_append, List.mem_map] at hj
    obtain ⟨m, _, rfl⟩ := hj
    rfl

/-- Witness of C2: `notes.txt` hashed under MD5 and SHA-256 gives two jobs. -/
theorem single_file_jobs_witness :
    (on_btnStart_clicked sampleFs sampleUi).created.map (fun j => (j.name, j.method)) =
      [("/home/u/notes.txt", Algorithm.Md5), ("/home/u/notes.txt", Algorithm.Sha256)] ∧
    ∃ pd, (on_btnStart_clicked sampleFs sampleUi).dialog = some pd ∧
      (on_btnStart_clicked sampleFs sampleUi).created = pd.jobs ∧
      pd.jobs.map (fun j => j.method) =
        ([(Algorithm.Md5, sampleUi.chkMD5), (Algorithm.Sha1, sampleUi.chkSHA1),
          (Algorithm.Sha256, sampleUi.chkSHA2_256), (Algorithm.Sha512, sampleUi.chkSHA2_512),
          (Algorithm.Sha3_256, sampleUi.chkSHA3_256),
          (Algorithm.Sha3_512, sampleUi.chkSHA3_512)].filter
            fun b => b.2).map (fun b => b.1) ∧
      pd.jobs.length =
        [sampleUi.chkMD5, sampleUi.chkSHA1, sampleUi.chkSHA2_256, sampleUi.chkSHA2_512,
          sampleUi.chkSHA3_256, sampleUi.chkSHA3_512].count true ∧
      (pd.jobs.map fun j => j.method).Nodup ∧
      ∀ j ∈ pd.jobs, j.name = (sampleFs.fileInfo sampleUi.txtFile).absoluteFilePath :=
  ⟨by decide, single_file_jobs sampleFs sampleUi (Or.inl rfl) (by decide)⟩

/-- C3: a run started from single-file mode has duplicate detection off whatever the
duplicates checkbox says; a run started from tree mode has it on exactly when the
checkbox is set and gives every job the one selected algorithm; hence in every run
started with duplicate detection on, all jobs are under one and the same algorithm. -/
theorem duplicates_only_with_one_algorithm (fs : FileSystem) (ui : Ui) :
    (∀ pd, (on_btnStart_clicked fs ui).dialog = some pd → pd.duplicates = false) ∧
    (∀ pd, (on_btnStartDir_clicked fs ui).dialog = some pd →
      pd.duplicates = ui.chkDuplicates ∧
      ∀ j ∈ pd.jobs, j.method = static_cast_Algorithm ui.cmbMethods_currentIndex) ∧
    (∀ pd, ((on_btnStart_clicked fs ui).dialog = some pd ∨
        (on_btnStartDir_clicked fs ui).dialog = some pd) →
      pd.duplicates = true → ∀ j ∈ pd.jobs, ∀ k ∈ pd.jobs, j.method = k.method) := by
  have hS : ∀ pd, (on_btnStart_clicked fs ui).dialog = some pd → pd.duplicates = false := by
    intro pd h
    unfold on_btnStart_clicked at h
    simp only [Outcome.nothing] at h
    split_ifs at h
    simp only [Option.some.injEq] at h
    rw [← h]
  have hD : ∀ pd, (on_btnStartDir_clicked fs ui).dialog = some pd →
      pd.duplicates = ui.chkDuplicates ∧
      ∀ j ∈ pd.jobs, j.method = static_cast_Algorithm ui.cmbMethods_currentIndex := by
    intro pd h
    unfold on_btnStartDir_clicked at h
    simp only [Outcome.nothing] at h
    split_ifs at h
    simp only [Option.some.injEq] at h
    rw [← h]
    refine ⟨rfl, ?_⟩
    intro j hj
    simp only [enumerate_jobs, List.mem_map] at hj
    obtain ⟨e, _, rfl⟩ := hj
    rfl
  refine ⟨hS, hD, ?_⟩
  intro pd h hdup j hj k hk
  rcases h with h | h
  · rw [hS pd h] at hdup
    exact absurd hdup (by decide)
  · rw [(hD pd h).2 j hj, (hD pd h).2 k hk]

/-- Witness of C3: the tree-mode run over `data` with the duplicates box checked is
started with duplicate detection on, the single-file run with it off. -/
theorem duplicates_only_with_one_algorithm_witness :
    sampleUi.chkDuplicates = true ∧
    (on_btnStart_clicked sampleFs sampleUi).dialog.map (fun pd => pd.duplicates) = some false ∧
    (on_btnStartDir_clicked sampleFs sampleUi).dialog.map (fun pd => pd.duplicates) =
      some true ∧
    (∀ pd, ((on_btnStart_clicked sampleFs sampleUi).dialog = some pd ∨
        (on_btnStartDir_clicked sampleFs sampleUi).dialog = some pd) →
      pd.duplicates = true → ∀ j ∈ pd.jobs, ∀ k ∈ pd.jobs, j.method = k.method) :=
  ⟨rfl, by decide, by decide, (duplicates_only_with_one_algorithm sampleFs sampleUi).2.2⟩

/-- C6: invalid requests are turned away before anything is allocated.  In single-file
mode with no box checked, or with an empty file path (for which `QFileInfo::exists()`
answers false), and in tree mode with an empty directory string, the handler creates no
job and constructs no progress dialog, whatever the other inputs are. -/
theorem invalid_requests_rejected (fs : FileSystem) (ui : Ui)
    (hnull : (fs.fileInfo "").fileExists = false) :
    ((ui.chkMD5 = false ∧ ui.chkSHA1 = false ∧ ui.chkSHA2_256 = false ∧
        ui.chkSHA2_512 = false ∧ ui.chkSHA3_256 = false ∧ ui.chkSHA3_512 = false) →
      (on_btnStart_clicked fs ui).created = [] ∧ (on_btnStart_clicked fs ui).dialog = none) ∧
    (ui.txtFile = "" →
      (on_btnStart_clicked fs ui).created = [] ∧ (on_btnStart_clicked fs ui).dialog = none) ∧
    (ui.txtDir = "" →
      (on_btnStartDir_clicked fs ui).created = [] ∧
      (on_btnStartDir_clicked fs ui).dialog = none) := by
  refine ⟨?_, ?_, ?_⟩
  · rintro ⟨h1, h2, h3, h4, h5, h6⟩
    simp [on_btnStart_clicked, selectedMethods, h1, h2, h3, h4, h5, h6, Outcome.nothing]
  · intro h
    unfold on_btnStart_clicked
    simp only [h, hnull, Outcome.nothing]
    split_ifs <;> simp at *
  · intro h
    simp [on_btnStartDir_clicked, h, Outcome.nothing]

/-- Witness of C6: the sample file system, where the empty path does not exist, with
the sample widgets. -/
theorem invalid_requests_rejected_witness :
    (sampleFs.fileInfo "").fileExists = false ∧
    (({ sampleUi with txtFile := "" } : Ui).txtFile = "" →
      (on_btnStart_clicked sampleFs { sampleUi with txtFile := "" }).created = [] ∧
      (on_btnStart_clicked sampleFs { sampleUi with txtFile := "" }).dialog = none) :=
  ⟨by decide, (invalid_requests_rejected sampleFs { sampleUi with txtFile := "" }
    (by decide)).2.1⟩

theorem handler_maxThreadCount (toInt : QString → Int) (w : MainWindow) (arg : QString) :
    (on_cmbThreads_currentIndexChanged toInt w arg).maxThreadCount = w.maxThreadCount := by
  unfold on_cmbThreads_currentIndexChanged
  simp only
  split_ifs <;> rfl

theorem handlers_maxThreadCount (toInt : QString → Int) (earlier : List QString)
    (w : MainWindow) :
    (earlier.foldl (on_cmbThreads_currentIndexChanged toInt) w).maxThreadCount =
      w.maxThreadCount := by
  induction earlier generalizing w with
  | nil => rfl
  | cons a rest ih => rw [List.foldl_cons, ih, handler_maxThreadCount]

/-- C4: after the constructor captured the host default `n` and after any sequence of
earlier selections, the worker-count handler sets the pool's worker count to the parsed
integer when that is at least 1 and to the captured host default when it is below 1
(0, a negative number, or a text that parses to 0); the stored host default is never
changed. -/
theorem worker_count_handler (toInt : QString → Int) (n : Int) (earlier : List QString)
    (arg : QString) :
    (1 ≤ toInt arg →
      (on_cmbThreads_currentIndexChanged toInt
        (earlier.foldl (on_cmbThreads_currentIndexChanged toInt) (MainWindow.new n))
        arg).poolMaxThreadCount = toInt arg) ∧
    (toInt arg < 1 →
      (on_cmbThreads_currentIndexChanged toInt
        (earlier.foldl (on_cmbThreads_currentIndexChanged toInt) (MainWindow.new n))
        arg).poolMaxThreadCount = n) ∧
    (on_cmbThreads_currentIndexChanged toInt
      (earlier.foldl (on_cmbThreads_currentIndexChanged toInt) (MainWindow.new n))
      arg).maxThreadCount = n := by
  have hkeep := handlers_maxThreadCount toInt earlier (MainWindow.new n)
  refine ⟨?_, ?_, ?_⟩
  · intro h
    have h' : ¬ toInt arg < 1 := by omega
    simp only [on_cmbThreads_currentIndexChanged, h', if_false]
  · intro h
    simp only [on_cmbThreads_currentIndexChanged, h, if_true, hkeep]
    rfl
  · rw [handler_maxThreadCount, hkeep]
    rfl

/-- Witness of C4: host default 8, earlier selections "3" and "auto", then "5" is
selected; and the text "auto" parses to 0. -/
theorem worker_count_handler_witness :
    QString_toInt "auto" = 0 ∧ QString_toInt "5" = 5 ∧
    (on_cmbThreads_currentIndexChanged QString_toInt
      ((["3", "auto"] : List QString).foldl
        (on_cmbThreads_currentIndexChanged QString_toInt) (MainWindow.new 8))
      "5").poolMaxThreadCount = QString_toInt "5" ∧
    (on_cmbThreads_currentIndexChanged QString_toInt
      ((["3", "5"] : List QString).foldl
        (on_cmbThreads_currentIndexChanged QString_toInt) (MainWindow.new 8))
      "auto").poolMaxThreadCount = 8 :=
  ⟨by decide, by decide,
    (worker_count_handler QString_toInt 8 ["3", "auto"] "5").1 (by decide),
    (worker_count_handler QString_toInt 8 ["3", "5"] "auto").2.1 (by decide)⟩

/-- Counterexample to C5: with host parallelism 4 the text "100" is passed to the
handler; it parses to 100 and the worker count in effect afterwards is 100, above 4. -/
theorem worker_count_not_clamped :
    QString_toInt "100" = 100 ∧
    (on_cmbThreads_currentIndexChanged QString_toInt (MainWindow.new 4)
      "100").poolMaxThreadCount = 100 ∧
    ¬ ((on_cmbThreads_currentIndexChanged QString_toInt (MainWindow.new 4)
      "100").poolMaxThreadCount ≤ (MainWindow.new 4).maxThreadCount) := by
  decide

/-- C5, amended: with host parallelism `n` at least 1, after any earlier selections, the
worker count in effect after the handler ran is at least 1 for every value passed; it
is at most `n` exactly when the value parses to at most `n` (the handler does not
clamp larger values). -/
theorem worker_count_range (toInt : QString → Int) (n : Int) (earlier : List QString)
    (arg : QString) (hn : 1 ≤ n) :
    1 ≤ (on_cmbThreads_currentIndexChanged toInt
      (earlier.foldl (on_cmbThreads_currentIndexChanged toInt) (MainWindow.new n))
      arg).poolMaxThreadCount ∧
    ((on_cmbThreads_currentIndexChanged toInt
      (earlier.foldl (on_cmbThreads_currentIndexChanged toInt) (MainWindow.new n))
      arg).poolMaxThreadCount ≤ n ↔ toInt arg ≤ n) := by
  have hkeep := handlers_maxThreadCount toInt earlier (MainWindow.new n)
  have hn' : (MainWindow.new n).maxThreadCount = n := rfl
  by_cases h : toInt arg < 1
  · simp only [on_cmbThreads_currentIndexChanged, h, if_true, hkeep, hn']
    constructor
    · exact hn
    · constructor
      · intro _; omega
      · intro _; exact le_refl n
  · simp only [on_cmbThreads_currentIndexChanged, h, if_false]
    exact ⟨by omega, trivial⟩

/-- Witness of C5 (amended): host parallelism 4, earlier selection "100", then "3". -/
theorem worker_count_range_witness :
    (1 : Int) ≤ 4 ∧
    1 ≤ (on_cmbThreads_currentIndexChanged QString_toInt
      ((["100"] : List QString).foldl
        (on_cmbThreads_currentIndexChanged QString_toInt) (MainWindow.new 4))
      "3").poolMaxThreadCount ∧
    ((on_cmbThreads_currentIndexChanged QString_toInt
      ((["100"] : List QString).foldl
        (on_cmbThreads_currentIndexChanged QString_toInt) (MainWindow.new 4))
      "3").poolMaxThreadCount ≤ 4 ↔ QString_toInt "3" ≤ 4) :=
  ⟨by decide, worker_count_range QString_toInt 4 ["100"] "3" (by decide)⟩

/-- C10: the environment built for the backup tool holds exactly the six variables TMP,
LOCALAPPDATA, B2_ACCOUNT_ID, B2_ACCOUNT_KEY, RESTIC_REPOSITORY and RESTIC_PASSWORD, the
first two with the system environment's values and the other four with the texts of the
UI fields; so two system environments that agree on TMP and LOCALAPPDATA give, with the
same UI fields, equal environments. -/
theorem restic_env_only_six (sysenv sysenv2 : QProcessEnvironment) (ui : Ui)
    (hTMP : sysenv.value "TMP" = sysenv2.value "TMP")
    (hLOCAL : sysenv.value "LOCALAPPDATA" = sysenv2.value "LOCALAPPDATA") :
    (getResticEnv sysenv ui).keys =
      ["TMP", "LOCALAPPDATA", "B2_ACCOUNT_ID", "B2_ACCOUNT_KEY", "RESTIC_REPOSITORY",
        "RESTIC_PASSWORD"] ∧
    (getResticEnv sysenv ui).value "TMP" = sysenv.value "TMP" ∧
    (getResticEnv sysenv ui).value "LOCALAPPDATA" = sysenv.value "LOCALAPPDATA" ∧
    (getResticEnv sysenv ui).value "B2_ACCOUNT_ID" = ui.txtResticB2ID ∧
    (getResticEnv sysenv ui).value "B2_ACCOUNT_KEY" = ui.txtResticB2Key ∧
    (getResticEnv sysenv ui).value "RESTIC_REPOSITORY" = ui.txtResticRepo ∧
    (getResticEnv sysenv ui).value "RESTIC_PASSWORD" = ui.txtResticPassword ∧
    getResticEnv sysenv ui = getResticEnv sysenv2 ui := by
  have hform : ∀ s : QProcessEnvironment, getResticEnv s ui =
      [("TMP", s.value "TMP"), ("LOCALAPPDATA", s.value "LOCALAPPDATA"),
        ("B2_ACCOUNT_ID", ui.txtResticB2ID), ("B2_ACCOUNT_KEY", ui.txtResticB2Key),
        ("RESTIC_REPOSITORY", ui.txtResticRepo),
        ("RESTIC_PASSWORD", ui.txtResticPassword)] := by
    intro s
    simp [getResticEnv, QProcessEnvironment.insert]
  refine ⟨?_, ?_, ?_, ?_, ?_, ?_, ?_, ?_⟩
  · rw [hform]; rfl
  · rw [hform]; simp [QProcessEnvironment.value]
  · rw [hform]; simp [QProcessEnvironment.value]
  · rw [hform]; simp [QProcessEnvironment.value]
  · rw [hform]; simp [QProcessEnvironment.value]
  · rw [hform]; simp [QProcessEnvironment.value]
  · rw [hform]; simp [QProcessEnvironment.value]
  · rw [hform, hform, hTMP, hLOCAL]

/-- Witness of C10: two system environments that differ in `HOME` and in a secret
variable but agree on TMP and LOCALAPPDATA (the latter unset in both). -/
theorem restic_env_only_six_witness :
    getResticEnv [("TMP", "/tmp"), ("HOME", "/home/a"), ("API_TOKEN", "s3cr3t")] sampleUi =
      getResticEnv [("HOME", "/home/b"), ("TMP", "/tmp")] sampleUi ∧
    (getResticEnv [("TMP", "/tmp"), ("HOME", "/home/a"), ("API_TOKEN", "s3cr3t")]
      sampleUi).value "API_TOKEN" = "" :=
  ⟨(restic_env_only_six [("TMP", "/tmp"), ("HOME", "/home/a"), ("API_TOKEN", "s3cr3t")]
      [("HOME", "/home/b"), ("TMP", "/tmp")] sampleUi (by decide) (by decide)).2.2.2.2.2.2.2,
    by decide⟩

theorem wrapInt32_id (x : Int) (h0 : 0 ≤ x) (h1 : x < 2 ^ 31) : wrapInt32 x = x := by
  unfold wrapInt32
  omega

theorem loopBody_items (method : Algorithm) (dir : QString) (st : LoopState) (e : DirEntry) :
    (loopBody method dir st e).items = wrapInt32 (st.items + 1) := by
  unfold loopBody
  cases e.isFile <;> rfl

theorem loopBody_totalsize (method : Algorithm) (dir : QString) (st : LoopState)
    (e : DirEntry) :
    (loopBody method dir st e).totalsize =
      if e.isFile then (st.totalsize + castQuint64 e.size) % 2 ^ 64 else st.totalsize := by
  unfold loopBody
  cases e.isFile <;> rfl

theorem enumerate_items (method : Algorithm) (dir : QString) (es : List DirEntry)
    (h : es.length < 2 ^ 31) : (enumerate method dir es).items = es.length := by
  induction es using List.reverseRecOn with
  | nil => rfl
  | append_singleton es e ih =>
    rw [List.length_append, List.length_singleton] at h
    rw [enumerate_snoc, loopBody_items, ih (by omega), wrapInt32_id _ (by omega) (by omega)]
    simp

theorem enumerate_totalsize (method : Algorithm) (dir : QString) (es : List DirEntry) :
    ((enumerate method dir es).totalsize : Int) =
      ((es.filter fun e => e.isFile).map fun e => e.size).sum % 2 ^ 64 := by
  induction es using List.reverseRecOn with
  | nil => rfl
  | append_singleton es e ih =>
    rw [enumerate_snoc, loopBody_totalsize]
    cases he : e.isFile
    · simp [List.filter_append, he, ih]
    · simp only [List.filter_append, List.map_append, List.sum_append, if_true,
        List.filter_cons, he, List.filter_nil, List.map_cons, List.map_nil, List.sum_cons,
        List.sum_nil, add_zero]
      have hc : ((castQuint64 e.size : Nat) : Int) = e.size % 2 ^ 64 := by
        unfold castQuint64
        exact Int.toNat_of_nonneg (Int.emod_nonneg _ (by norm_num))
      push_cast
      rw [hc, ih]
      omega

/-- C8: after `k` entries of a listing have been processed in tree mode, the item counter
is `k` (for `k` below 2^31), the number of jobs is the number of regular-file entries
among those `k`, and the total-bytes counter is the sum of the sizes of exactly those
regular-file entries taken modulo 2^64; sizes of other entries are not added. -/
theorem enumeration_counters (method : Algorithm) (dir : QString) (entries : List DirEntry)
    (k : Nat) (hk : k ≤ entries.length) :
    (k < 2 ^ 31 → (enumerate method dir (entries.take k)).items = k) ∧
    (enumerate method dir (entries.take k)).jobs.length =
      ((entries.take k).filter fun e => e.isFile).length ∧
    ((enumerate method dir (entries.take k)).totalsize : Int) =
      (((entries.take k).filter fun e => e.isFile).map fun e => e.size).sum % 2 ^ 64 := by
  have hlen : (entries.take k).length = k := by
    rw [List.length_take]; omega
  refine ⟨?_, ?_, enumerate_totalsize _ _ _⟩
  · intro h31
    rw [enumerate_items _ _ _ (by omega), hlen]
  · rw [enumerate_jobs, List.length_map]

/-- Witness of C8: the first two entries of the listing of `data`, a directory of size
4096 and a file of size 3. -/
theorem enumeration_counters_witness :
    (enumerate Algorithm.Sha256 "data" ((sampleFs.entries "data").take 2)).items = 2 ∧
    (enumerate Algorithm.Sha256 "data" ((sampleFs.entries "data").take 2)).jobs.length = 1 ∧
    (enumerate Algorithm.Sha256 "data" ((sampleFs.entries "data").take 2)).totalsize = 3 ∧
    (((2 : Nat) < 2 ^ 31 →
      (enumerate Algorithm.Sha256 "data" ((sampleFs.entries "data").take 2)).items =
        (2 : Nat)) ∧
    (enumerate Algorithm.Sha256 "data" ((sampleFs.entries "data").take 2)).jobs.length =
      (((sampleFs.entries "data").take 2).filter fun e => e.isFile).length ∧
    ((enumerate Algorithm.Sha256 "data" ((sampleFs.entries "data").take 2)).totalsize : Int) =
      ((((sampleFs.entries "data").take 2).filter fun e => e.isFile).map
        fun e => e.size).sum % 2 ^ 64) :=
  ⟨by decide, by decide, by decide,
    enumeration_counters Algorithm.Sha256 "data" (sampleFs.entries "data") 2 (by decide)⟩

end QtHashSum
